import Mathlib

/-!
Verification of the identifier-registry / action-plan-builder / device-resolver
core of the gentoo-install repository (src/scripts/config.py and
src/scripts/utils.py), shallowly embedded in Lean 4.

Python dictionaries are modelled as association lists with unique keys
(insert updates the first matching key in place, otherwise appends, which
coincides with Python dict semantics because every key is inserted at most
once here).  Python strings are Lean `String`s; byte-level operations
(`encode('utf-8').hex()`) are implemented explicitly.  `die_trace`/`die`
(which print and `sys.exit`) are modelled as `Except` errors; for the
builder operations the error also carries the state of the configurator at
the moment of death, since the Python methods mutate `self` in place before
some of the checks run.
-/

namespace GentooInstall

/-- Whitespace characters stripped by Python's `str.strip()`. -/
def isPySpace (c : Char) : Bool :=
  c = ' ' || c = '\t' || c = '\n' || c = '\r' || c = '\x0b' || c = '\x0c'

/-- Python `str.strip()`: remove leading and trailing whitespace. -/
def pyStrip (s : String) : String :=
  ⟨((s.data.dropWhile isPySpace).reverse.dropWhile isPySpace).reverse⟩

/-- Python `str.lower()` restricted to ASCII (all strings handled here are ASCII). -/
def pyLower (s : String) : String := ⟨s.data.map Char.toLower⟩

/-- Python `c in s` membership test for a single character. -/
def containsChar (s : String) (c : Char) : Bool := s.data.any (fun x => x = c)

/-- Truthiness of an optional string argument in Python (`if device:`):
false for `None` and for the empty string. -/
def pyTruthy : Option String → Bool
  | none => false
  | some s => !s.data.isEmpty

/-- Python dict assignment `d[k] = v` on an association list with unique keys:
update the first entry with key `k` in place, otherwise append. -/
def dinsert {α : Type} (k : String) (v : α) : List (String × α) → List (String × α)
  | [] => [(k, v)]
  | (k', v') :: rest => if k' = k then (k, v) :: rest else (k', v') :: dinsert k v rest

/-- Python dict lookup `d.get(k)`: first entry with key `k`. -/
def dget {α : Type} : List (String × α) → String → Option α
  | [], _ => none
  | (k', v) :: rest, k => if k' = k then some v else dget rest k

/-- UTF-8 encoding of a single code point as a list of byte values
(Python `str.encode('utf-8')`). -/
def utf8Bytes (c : Char) : List Nat :=
  let n := c.toNat
  if n < 0x80 then [n]
  else if n < 0x800 then [0xC0 + n / 0x40, 0x80 + n % 0x40]
  else if n < 0x10000 then
    [0xE0 + n / 0x1000, 0x80 + (n / 0x40) % 0x40, 0x80 + n % 0x40]
  else
    [0xF0 + n / 0x40000, 0x80 + (n / 0x1000) % 0x40, 0x80 + (n / 0x40) % 0x40, 0x80 + n % 0x40]

/-- Lowercase hexadecimal digit for a value below 16 (Python `bytes.hex()`). -/
def hexDigit (n : Nat) : Char :=
  if n < 10 then Char.ofNat (48 + n) else Char.ofNat (87 + n)

/-- Python `id_val.encode('utf-8').hex()`: lowercase hex of the UTF-8 bytes. -/
def bytesHex (s : String) : String :=
  ⟨(s.data.flatMap utf8Bytes).flatMap (fun b => [hexDigit (b / 16), hexDigit (b % 16)])⟩

/-- Fatal errors raised through `die_trace` / `die` / uncaught Python exceptions.
Each constructor corresponds to one exit site in the source. -/
inductive Err : Type where
  /-- config.py create_new_id: `Argument '<arg>' is required for ID creation.` -/
  | requiredArg (arg : String)
  /-- config.py create_new_id: `Identifier contains invalid character ';'` -/
  | invalidSeparator
  /-- config.py create_new_id: `Identifier '<id>' already exists` -/
  | duplicateId (id : String)
  /-- config.py verify_existing_id: `Identifier <arg>='<id>' not found` -/
  | unknownId (arg : String) (id : String)
  /-- config.py verify_option: `Invalid option <opt>='<val>', ...` -/
  | invalidOption (opt : String) (val : String)
  /-- config.py only_one_of: `Only one of the arguments (...) can be given` -/
  | onlyOneOf (keys : String)
  /-- config.py create_partition: `Cannot add another partition to table (<id>) after size=remaining was used` -/
  | tableFull (id : String)
  /-- config.py create_classic_single_disk_layout: `Unsupported root filesystem type` -/
  | unsupportedRootFs
  /-- Uncaught Python `KeyError` from indexing a dict with a missing key. -/
  | keyError (key : String)
  /-- utils.py resolve_device_by_id: `Cannot resolve id='<id>' to a block device (no table entry)` -/
  | cannotResolveId (id : String)
  /-- utils.py resolve_device_by_id: `Invalid resolve entry format: '<entry>'` -/
  | invalidResolveEntry (entry : String)
  /-- utils.py resolve_device_by_id: `Cannot resolve '<entry>' to device (unknown type)` -/
  | unknownResolveType (entry : String)
  /-- utils.py: the `die` sites reporting that no device matched a probe
  (`Could not find device by blkid tag ...`, `Could not find PTUUID=... in lsblk output`,
  `Could not find UUID=... in mdadm output`). -/
  | deviceNotFound (msg : String)
  /-- utils.py get_device_by_ptuuid: `lsblk output cache is empty.` -/
  | lsblkCacheEmpty
  deriving Repr, DecidableEq

/-- State of `DiskConfigurator` (config.py).  The path constants derived from
`base_dir` in `__init__` (TMP_DIR, ROOT_MOUNTPOINT, GENTOO_INSTALL_REPO_BIND,
UUID_STORAGE_DIR, LUKS_HEADER_BACKUP_DIR) are never read by the modelled
operations and are omitted.  `RESOLVE_ENTRIES` records the calls to the
`create_resolve_entry` / `create_resolve_entry_device` placeholders (which in
config.py only print a `DEBUG: Registered ...` line) as `(id, kind, value)`
triples, in order. -/
structure DiskConfigurator : Type where
  USED_RAID : Bool := false
  USED_LUKS : Bool := false
  USED_ZFS : Bool := false
  USED_BTRFS : Bool := false
  USED_ENCRYPTION : Bool := false
  NO_PARTITIONING_OR_FORMATTING : Bool := false
  DISK_ACTIONS : List String := []
  DISK_DRACUT_CMDLINE : List String := []
  DISK_ID_TO_RESOLVABLE : List (String × String) := []
  DISK_ID_PART_TO_GPT_ID : List (String × String) := []
  DISK_ID_TO_UUID : List (String × String) := []
  DISK_GPT_HAD_SIZE_REMAINING : List (String × Bool) := []
  DISK_ID_EFI : Option String := none
  DISK_ID_BIOS : Option String := none
  DISK_ID_SWAP : Option String := none
  DISK_ID_ROOT : Option String := none
  DISK_ID_ROOT_TYPE : Option String := none
  DISK_ID_ROOT_MOUNT_OPTS : Option String := none
  RESOLVE_ENTRIES : List (String × String × String) := []
  deriving Repr, DecidableEq

/-- A fresh `DiskConfigurator` as produced by `__init__`. -/
def initState : DiskConfigurator := {}

namespace Config

/-- config.py `load_or_generate_uuid` (the local placeholder defined at the top
of config.py, which is the one `DiskConfigurator.create_new_id` calls):
returns `f"STUB-UUID-{base64_id[:4]}"`. -/
def load_or_generate_uuid (base64_id : String) : String :=
  "STUB-UUID-" ++ ⟨base64_id.data.take 4⟩

end Config

/-- Result of a builder operation: on success the new state; on a fatal error
the error together with the state of `self` at the moment `die_trace` fired
(the Python methods mutate `self` in place, so partial mutations survive up to
the exit). -/
abbrev DResult := Except (Err × DiskConfigurator) DiskConfigurator

namespace DiskConfigurator

/-- config.py `DiskConfigurator.create_new_id`.  At every call site the
`arguments` dict contains the key `arg_name` mapped to the parameter value, so
the dict access is inlined: `if not id_val` is true exactly when the value is
the empty string.  The helper never mutates after a failed check, so it
returns `Except Err` and callers pair errors with their current state. -/
def create_new_id (s : DiskConfigurator) (id_val : String) : Except Err DiskConfigurator :=
  if id_val.data.isEmpty then .error (.requiredArg "new_id")
  else if containsChar id_val ';' then .error .invalidSeparator
  else if (dget s.DISK_ID_TO_UUID id_val).isSome then .error (.duplicateId id_val)
  else
    let uuid := Config.load_or_generate_uuid (bytesHex id_val)
    .ok { s with DISK_ID_TO_UUID := dinsert id_val uuid s.DISK_ID_TO_UUID }

/-- config.py `DiskConfigurator.register_existing`. -/
def register_existing (s : DiskConfigurator) (new_id device : String) : DResult :=
  match s.create_new_id new_id with
  | .error e => .error (e, s)
  | .ok s1 =>
    .ok { s1 with
      RESOLVE_ENTRIES := s1.RESOLVE_ENTRIES ++ [(new_id, "device", device)],
      DISK_ACTIONS := s1.DISK_ACTIONS ++
        ["action=existing new_id=" ++ new_id ++ " device=" ++ device ++ ";"] }

/-- Optional `key=value` fragment of an action string (emitted only when the
Python argument is truthy, mirroring `if device: action += f" device={device}"`). -/
def optFragment (kw : String) (o : Option String) : String :=
  match o with
  | some v => if v.data.isEmpty then "" else " " ++ kw ++ "=" ++ v
  | none => ""

/-- config.py `DiskConfigurator.create_gpt`.  The `arguments` dict contains
`device` / `id` only when the corresponding parameter is truthy, so
`only_one_of` fires exactly when both are truthy; `verify_existing_id` runs
only under `if id_val:` and checks membership in `DISK_ID_TO_UUID` after the
new id has already been registered. -/
def create_gpt (s : DiskConfigurator) (new_id : String)
    (device id_val : Option String) : DResult :=
  if pyTruthy device && pyTruthy id_val then .error (.onlyOneOf "device, id", s)
  else
    match s.create_new_id new_id with
    | .error e => .error (e, s)
    | .ok s1 =>
      if pyTruthy id_val && (dget s1.DISK_ID_TO_UUID (id_val.getD "")).isNone then
        .error (.unknownId "id" (id_val.getD ""), s1)
      else
        let uuid := (dget s1.DISK_ID_TO_UUID new_id).getD ""
        let action := "action=create_gpt new_id=" ++ new_id
          ++ optFragment "device" device ++ optFragment "id" id_val ++ ";"
        .ok { s1 with
          RESOLVE_ENTRIES := s1.RESOLVE_ENTRIES ++ [(new_id, "ptuuid", uuid)],
          DISK_ACTIONS := s1.DISK_ACTIONS ++ [action] }

/-- The fixed partition-type enum of config.py `create_partition`. -/
def partitionTypes : List String := ["bios", "efi", "swap", "raid", "luks", "linux"]

/-- config.py `DiskConfigurator.create_partition`.  Check order is exactly the
source's: create_new_id, verify_existing_id on the table id, verify_option on
the type, the remaining-size-used flag, then the mutations. -/
def create_partition (s : DiskConfigurator) (new_id id_val size type_ : String) : DResult :=
  match s.create_new_id new_id with
  | .error e => .error (e, s)
  | .ok s1 =>
    if (dget s1.DISK_ID_TO_UUID id_val).isNone then
      .error (.unknownId "id" id_val, s1)
    else if !(partitionTypes.contains type_) then
      .error (.invalidOption "type" type_, s1)
    else if (dget s1.DISK_GPT_HAD_SIZE_REMAINING id_val).getD false then
      .error (.tableFull id_val, s1)
    else
      let flags := dinsert id_val true s1.DISK_GPT_HAD_SIZE_REMAINING
      let s2 := if size = "remaining" then
        { s1 with DISK_GPT_HAD_SIZE_REMAINING := flags } else s1
      let s3 := { s2 with DISK_ID_PART_TO_GPT_ID := dinsert new_id id_val s2.DISK_ID_PART_TO_GPT_ID }
      let uuid := (dget s3.DISK_ID_TO_UUID new_id).getD ""
      .ok { s3 with
        RESOLVE_ENTRIES := s3.RESOLVE_ENTRIES ++ [(new_id, "partuuid", uuid)],
        DISK_ACTIONS := s3.DISK_ACTIONS ++
          ["action=create_partition new_id=" ++ new_id ++ " id=" ++ id_val
            ++ " size=" ++ size ++ " type=" ++ type_ ++ ";"] }

/-- Tail of config.py `create_classic_single_disk_layout`, from the line
`root_id = "part_root"` onward (split out as a named definition purely so the
proofs can reason about it separately; `s4` is the state after the root
partition was created).  Note that the luks branch appends the `create_luks`
action string directly and then indexes
`self.DISK_ID_TO_UUID['part_luks_root']` without ever having registered
`part_luks_root`; in Python that dict access raises `KeyError` (the sets of
`USED_LUKS`/`USED_ENCRYPTION` and the action append have already happened,
the dracut-cmdline append has not). -/
def classic_after_partitions (s4 : DiskConfigurator)
    (swap type_ luks root_fs : String) : DResult :=
  let use_luks := luks = "true"
  let afterLuks : Except (Err × DiskConfigurator) (DiskConfigurator × String) :=
    if use_luks then
      let s5 := { s4 with
        USED_LUKS := true, USED_ENCRYPTION := true,
        DISK_ACTIONS := s4.DISK_ACTIONS ++
          ["action=create_luks new_id=part_luks_root name=root id=part_root;"] }
      match dget s5.DISK_ID_TO_UUID "part_luks_root" with
      | none => .error (.keyError "part_luks_root", s5)
      | some u =>
        .ok ({ s5 with DISK_DRACUT_CMDLINE :=
          s5.DISK_DRACUT_CMDLINE ++ ["rd.luks.uuid=" ++ u] }, "part_luks_root")
    else .ok (s4, "part_root")
  match afterLuks with
  | .error e => .error e
  | .ok (s6, root_id) =>
  let s7 := { s6 with DISK_ACTIONS := s6.DISK_ACTIONS ++
    ["action=format id=part_" ++ type_ ++ " type=" ++ type_ ++ " label=" ++ type_ ++ ";"] }
  let s8 := if swap ≠ "false" then
    { s7 with DISK_ACTIONS := s7.DISK_ACTIONS ++
      ["action=format id=part_swap type=swap label=swap;"] }
    else s7
  let s9 := { s8 with DISK_ACTIONS := s8.DISK_ACTIONS ++
    ["action=format id=" ++ root_id ++ " type=" ++ root_fs ++ " label=root;"] }
  let s10 := if type_ = "efi" then { s9 with DISK_ID_EFI := some ("part_" ++ type_) }
    else { s9 with DISK_ID_BIOS := some ("part_" ++ type_) }
  let s11 := if swap ≠ "false" then { s10 with DISK_ID_SWAP := some "part_swap" } else s10
  let s12 := { s11 with DISK_ID_ROOT := some root_id, DISK_ID_ROOT_TYPE := some root_fs }
  if root_fs = "btrfs" then
    .ok { s12 with DISK_ID_ROOT_MOUNT_OPTS := some "defaults,noatime,compress-force=zstd,subvol=/root" }
  else if root_fs = "ext4" then
    .ok { s12 with DISK_ID_ROOT_MOUNT_OPTS := some "defaults,noatime,errors=remount-ro,discard" }
  else .error (.unsupportedRootFs, s12)

/-- config.py `DiskConfigurator.create_classic_single_disk_layout`: table,
boot partition, optional swap partition, root partition sized `remaining`,
then `classic_after_partitions` (the luks wrap, formats and role-id
assignments). -/
def create_classic_single_disk_layout (s : DiskConfigurator)
    (device swap type_ luks root_fs : String) : DResult :=
  match s.create_gpt "gpt" (some device) none with
  | .error e => .error e
  | .ok s1 =>
  match s1.create_partition ("part_" ++ type_) "gpt" "1GiB" type_ with
  | .error e => .error e
  | .ok s2 =>
  let afterSwap : DResult :=
    if swap ≠ "false" then s2.create_partition "part_swap" "gpt" swap "swap"
    else .ok s2
  match afterSwap with
  | .error e => .error e
  | .ok s3 =>
  match s3.create_partition "part_root" "gpt" "remaining" "linux" with
  | .error e => .error e
  | .ok s4 => classic_after_partitions s4 swap type_ luks root_fs

end DiskConfigurator

/-- Error component of a builder result, if any. -/
def errOf (r : DResult) : Option Err :=
  match r with
  | .ok _ => none
  | .error (e, _) => some e

/-- The configurator state an operation ended in: the new state on success,
the state at the moment of death on a fatal error. -/
def stateOf (r : DResult) : DiskConfigurator :=
  match r with
  | .ok s => s
  | .error (_, s) => s

/-- Whether a builder result is a success. -/
def isOkResult (r : DResult) : Bool :=
  match r with
  | .ok _ => true
  | .error _ => false

namespace Utils

/-- The persisted UUID store of utils.py: the directory `UUID_STORAGE_DIR`,
modelled as filename-to-contents pairs (one file per identifier encoding).
This is the only state `load_or_generate_uuid` reads or writes. -/
structure UuidStore : Type where
  files : List (String × String) := []
  deriving Repr, DecidableEq

/-- utils.py `load_or_generate_uuid` (the real implementation, lines 370-396).
`gen` is the stdout the `uuidgen -r` subprocess would produce on this call.
If the store holds a file for the encoding, its contents are returned after
`str.strip()` and the store is untouched; otherwise the stripped `uuidgen`
output is persisted under the encoding and returned.  The I/O-failure `die`
branches (unreadable file, uuidgen missing) are outside the modelled state. -/
def load_or_generate_uuid (store : UuidStore) (gen : String) (base64_id : String) :
    String × UuidStore :=
  match dget store.files base64_id with
  | some contents => (pyStrip contents, store)
  | none =>
    let uuid := pyStrip gen
    (uuid, ⟨dinsert base64_id uuid store.files⟩)

/-- Read-only view of the system surface the resolver probes.  `realpath` is
`os.path.realpath` (total: it never raises for missing paths); `byIdListing`
is `os.listdir("/dev/disk/by-id")`; `pathExists` is `os.path.exists`;
`blkidExport tag` is the stdout of `blkid -c /dev/null -o export -t tag`
(empty when blkid found nothing and exited non-zero); `lsblkOutput` is the
process-wide cached stdout of `lsblk --all --path --pairs --output
NAME,PTUUID,PARTUUID`; `mdadmOutput` is the stdout of `mdadm --examine
--scan`. -/
structure SysProbes : Type where
  realpath : String → String
  byIdListing : List String
  pathExists : String → Bool
  blkidExport : String → String
  lsblkOutput : String
  mdadmOutput : String

/-- Python `os.path.join(base, p)` for the cases arising here: an absolute
second component replaces the base. -/
def pyJoin (base p : String) : String :=
  match p.data with
  | '/' :: _ => p
  | _ => base ++ "/" ++ p

/-- utils.py `canonicalize_device`: return the first `/dev/disk/by-id/` entry
whose real path equals the given device's real path, else the device itself.
The `except OSError: continue` around `os.path.realpath` is dead code
(realpath does not raise for broken symlinks), so `realpath` is total here. -/
def canonicalize_device (fs : SysProbes) (given_dev : String) : String :=
  let rp := fs.realpath given_dev
  match fs.byIdListing.find? (fun name => fs.realpath (pyJoin "/dev/disk/by-id" name) = rp) with
  | some name => pyJoin "/dev/disk/by-id" name
  | none => given_dev

/-- Characters allowed in the capture group `[^"'\n]+` of the DEVNAME regex. -/
def isCapChar (c : Char) : Bool := !(c = '"') && !(c = '\'') && !(c = '\n')

/-- Match of the regex `DEVNAME=["']?([^"'\n]+)["']?` against the text that
follows `DEVNAME=` on one line.  The optional opening quote is consumed
greedily; if the capture after it would be empty the regex backtracks to the
unconsumed-quote alternative, whose capture then starts at the quote character
and is empty as well, so the line fails. -/
def devnameCapture (r : List Char) : Option (List Char) :=
  match r with
  | [] => none
  | c :: rest =>
    if c = '"' || c = '\'' then
      let cap := rest.takeWhile isCapChar
      if cap.isEmpty then none else some cap
    else
      let cap := (c :: rest).takeWhile isCapChar
      if cap.isEmpty then none else some cap

/-- Split a character list at newlines (Python `str.split("\n")`), giving the
lines at which `re.MULTILINE`'s `^` anchors. -/
def splitLinesChar : List Char → List (List Char)
  | [] => [[]]
  | c :: rest =>
    match splitLinesChar rest with
    | [] => [[]]
    | l :: ls => if c = '\n' then [] :: l :: ls else (c :: l) :: ls

/-- utils.py `get_device_by_blkid_field`'s regex
`^DEVNAME=["']?([^"'\n]+)["']?` with `re.MULTILINE`: the first line starting
with `DEVNAME=` that yields a nonempty capture. -/
def findDevname (output : String) : Option String :=
  (splitLinesChar output.data).findSome? (fun line =>
    if "DEVNAME=".data.isPrefixOf line then
      (devnameCapture (line.drop 8)).map (fun cap => (⟨cap⟩ : String))
    else none)

/-- utils.py `get_device_by_blkid_field` (device lookup by blkid tag): runs
blkid filtered by `field=value` and extracts `DEVNAME`; dies when no match. -/
def get_device_by_blkid_field (fs : SysProbes) (blkid_field field_value : String) :
    Except Err String :=
  let tag_value := blkid_field ++ "=" ++ field_value
  let dev_output := fs.blkidExport tag_value
  match findDevname dev_output with
  | none => .error (.deviceNotFound ("Could not find device by blkid tag '" ++ tag_value ++ "'"))
  | some d => .ok (pyStrip d)

/-- utils.py `get_device_by_partuuid`: prefer the `/dev/disk/by-partuuid/`
symlink when it exists, else query blkid. -/
def get_device_by_partuuid (fs : SysProbes) (partuuid : String) : Except Err String :=
  let by_path := "/dev/disk/by-partuuid/" ++ partuuid
  if fs.pathExists by_path then .ok by_path
  else get_device_by_blkid_field fs "PARTUUID" partuuid

/-- utils.py `get_device_by_uuid`: prefer the `/dev/disk/by-uuid/` symlink
when it exists, else query blkid. -/
def get_device_by_uuid (fs : SysProbes) (uuid : String) : Except Err String :=
  let by_path := "/dev/disk/by-uuid/" ++ uuid
  if fs.pathExists by_path then .ok by_path
  else get_device_by_blkid_field fs "UUID" uuid

/-- Attempted match of the regex `name="([^"]+)" ptuuid="P" partuuid=""` at
the start of `l` (pattern and subject already lowercased).  `[^"]+` is
delimited by the following quote, so the capture is exactly the maximal
nonempty run of non-quote characters and no backtracking is possible. -/
def ptuuidMatchAt (p : List Char) (l : List Char) : Option (List Char) :=
  if "name=\"".data.isPrefixOf l then
    let rest := l.drop 6
    let cap := rest.takeWhile (fun c => !(c = '"'))
    if cap.isEmpty then none
    else if ("\" ptuuid=\"".data ++ p ++ "\" partuuid=\"\"".data).isPrefixOf (rest.drop cap.length)
    then some cap else none
  else none

/-- Leftmost `re.search`: try the matcher at every start position. -/
def scanFirst (f : List Char → Option (List Char)) : List Char → Option (List Char)
  | [] => f []
  | c :: rest =>
    match f (c :: rest) with
    | some r => some r
    | none => scanFirst f rest

/-- utils.py `get_device_by_ptuuid`: search the (cached) lsblk output,
lowercased, for a row whose `ptuuid` equals the lowercased argument and whose
`partuuid` is empty (the disk itself), returning the captured `name`. -/
def get_device_by_ptuuid (output : String) (ptuuid : String) : Except Err String :=
  let pt := pyLower ptuuid
  if output.data.isEmpty then .error .lsblkCacheEmpty
  else
    match scanFirst (ptuuidMatchAt pt.data) (pyLower output).data with
    | none => .error (.deviceNotFound ("Could not find PTUUID='" ++ pt ++ "' in lsblk output"))
    | some cap => .ok ⟨cap⟩

/-- utils.py `uuid_to_mduuid`: lowercase, drop hyphens, regroup as four
colon-separated 8-character groups. -/
def uuid_to_mduuid (uuid : String) : String :=
  let u := (pyLower uuid).data.filter (fun c => !(c = '-'))
  (⟨u.take 8⟩ : String) ++ ":" ++ (⟨(u.drop 8).take 8⟩ : String) ++ ":"
    ++ (⟨(u.drop 16).take 8⟩ : String) ++ ":" ++ (⟨(u.drop 24).take 8⟩ : String)

/-- Attempted match of the regex `array (\S+)\s+uuid=M` at the start of `l`
(subject already lowercased, `M` the mdadm-format uuid).  `\S+` must be the
whole maximal non-space run and `\s+` the whole maximal space run, since
shrinking either would leave a character the next regex atom rejects. -/
def mdadmMatchAt (m : List Char) (l : List Char) : Option (List Char) :=
  if "array ".data.isPrefixOf l then
    let rest := l.drop 6
    let tok := rest.takeWhile (fun c => !(isPySpace c))
    if tok.isEmpty then none
    else
      let rest2 := rest.drop tok.length
      let ws := rest2.takeWhile isPySpace
      if ws.isEmpty then none
      else if ("uuid=".data ++ m).isPrefixOf (rest2.drop ws.length) then some tok else none
  else none

/-- utils.py `get_device_by_mdadm_uuid`: transform the UUID to mdadm format,
scan the lowercased `mdadm --examine --scan` output, return the array path. -/
def get_device_by_mdadm_uuid (output : String) (uuid : String) : Except Err String :=
  let mduuid := uuid_to_mduuid uuid
  match scanFirst (mdadmMatchAt mduuid.data) (pyLower output).data with
  | none => .error (.deviceNotFound ("Could not find UUID='" ++ mduuid ++ "' in mdadm output"))
  | some tok => .ok ⟨tok⟩

/-- utils.py `get_device_by_luks_name`. -/
def get_device_by_luks_name (name : String) : String := "/dev/mapper/" ++ name

/-- Python `entry.split(':', 1)` when `':' in entry`: the part before the
first colon and the part after it. -/
def splitFirstColon (entry : String) : String × String :=
  ((⟨entry.data.takeWhile (fun c => !(c = ':'))⟩ : String),
   (⟨(entry.data.dropWhile (fun c => !(c = ':'))).drop 1⟩ : String))

/-- utils.py `resolve_device_by_id`: look up the resolve-table entry, split
`kind:value`, dispatch on the kind, and canonicalize the result.  The table
is read-only here and the function is pure in `(table, fs)`, so repeated
queries return identical results; the lsblk cache (filled once per process)
appears as the fixed `fs.lsblkOutput`. -/
def resolve_device_by_id (table : List (String × String)) (fs : SysProbes)
    (id_val : String) : Except Err String := do
  match dget table id_val with
  | none => .error (.cannotResolveId id_val)
  | some entry =>
    if !(containsChar entry ':') then .error (.invalidResolveEntry entry)
    else
      let (type_val, arg) := splitFirstColon entry
      let dev ← (
        if type_val = "partuuid" then get_device_by_partuuid fs arg
        else if type_val = "ptuuid" then get_device_by_ptuuid fs.lsblkOutput arg
        else if type_val = "uuid" then get_device_by_uuid fs arg
        else if type_val = "mdadm" then get_device_by_mdadm_uuid fs.mdadmOutput arg
        else if type_val = "luks" then .ok (get_device_by_luks_name arg)
        else if type_val = "device" then .ok arg
        else .error (.unknownResolveType entry) : Except Err String)
      return canonicalize_device fs dev

end Utils

/-! Helper lemmas about the dictionary model and the Python string helpers. -/

theorem dget_dinsert {α : Type} (k t : String) (v : α) (l : List (String × α)) :
    dget (dinsert k v l) t = if k = t then some v else dget l t := by
  induction l with
  | nil => simp [dinsert, dget]
  | cons hd tl ih =>
    obtain ⟨k', v'⟩ := hd
    by_cases hk : k' = k
    · subst hk
      simp only [dinsert, if_pos rfl, dget]
      by_cases ht : k' = t
      · subst ht; simp [dget]
      · simp [dget, ht]
    · simp only [dinsert, if_neg hk, dget]
      by_cases ht : k' = t
      · subst ht
        have : ¬ k = k' := fun h => hk h.symm
        simp [dget, this]
      · simp [dget, ht, ih]

theorem dget_dinsert_self {α : Type} (k : String) (v : α) (l : List (String × α)) :
    dget (dinsert k v l) k = some v := by
  rw [dget_dinsert]; simp

theorem dget_dinsert_ne {α : Type} {k t : String} (v : α) (l : List (String × α))
    (h : k ≠ t) : dget (dinsert k v l) t = dget l t := by
  rw [dget_dinsert]; simp [h]

theorem dget_dinsert_true_mono {k t : String} {l : List (String × Bool)}
    (h : dget l t = some true) : dget (dinsert k true l) t = some true := by
  rw [dget_dinsert]
  by_cases hk : k = t <;> simp [hk, h]

/-! Idempotence of Python `str.strip()`. -/

theorem dropWhile_dropWhile (p : Char → Bool) (l : List Char) :
    (l.dropWhile p).dropWhile p = l.dropWhile p := by
  induction l with
  | nil => rfl
  | cons a t ih =>
    by_cases h : p a = true
    · simp [List.dropWhile_cons, h, ih]
    · simp [List.dropWhile_cons, h]

theorem dropWhile_head_false {p : Char → Bool} {l : List Char} {a : Char} {t : List Char}
    (h : l.dropWhile p = a :: t) : p a = false := by
  induction l with
  | nil => simp [List.dropWhile] at h
  | cons b u ih =>
    by_cases hb : p b = true
    · rw [List.dropWhile_cons, if_pos hb] at h; exact ih h
    · rw [List.dropWhile_cons, if_neg hb] at h
      obtain ⟨rfl, -⟩ := List.cons.injEq b u a t ▸ h
      simpa using hb

theorem dropWhile_is_suffix (p : Char → Bool) (l : List Char) :
    ∃ pre, pre ++ l.dropWhile p = l := by
  induction l with
  | nil => exact ⟨[], rfl⟩
  | cons a t ih =>
    by_cases h : p a = true
    · obtain ⟨pre, hp⟩ := ih
      exact ⟨a :: pre, by simp [List.dropWhile_cons, h, hp]⟩
    · exact ⟨[], by simp [List.dropWhile_cons, h]⟩

/-- Right strip on character lists: remove trailing characters satisfying `p`. -/
def rstripList (p : Char → Bool) (l : List Char) : List Char :=
  (l.reverse.dropWhile p).reverse

theorem rstripList_idem (p : Char → Bool) (l : List Char) :
    rstripList p (rstripList p l) = rstripList p l := by
  unfold rstripList
  rw [List.reverse_reverse, dropWhile_dropWhile]

theorem dropWhile_rstrip_dropWhile (p : Char → Bool) (l : List Char) :
    (rstripList p (l.dropWhile p)).dropWhile p = rstripList p (l.dropWhile p) := by
  cases h : l.dropWhile p with
  | nil => simp [rstripList, List.dropWhile]
  | cons a t =>
    have ha : p a = false := dropWhile_head_false h
    obtain ⟨pre, hp⟩ := dropWhile_is_suffix p (a :: t).reverse
    have hrev : (rstripList p (a :: t)) ++ pre.reverse = a :: t := by
      have := congrArg List.reverse hp
      simpa [rstripList, List.reverse_append] using this
    cases hu : rstripList p (a :: t) with
    | nil => simp [List.dropWhile]
    | cons b v =>
      rw [hu] at hrev
      have hb : b = a := by
        have := hrev
        simp only [List.cons_append] at this
        exact (List.cons.injEq b _ a t ▸ this).1
      subst hb
      simp [List.dropWhile_cons, ha]

theorem pyStrip_idem (s : String) : pyStrip (pyStrip s) = pyStrip s := by
  have hdata : ∀ u : String, (pyStrip u).data = rstripList isPySpace (u.data.dropWhile isPySpace) := by
    intro u; rfl
  apply String.ext
  rw [hdata, hdata, dropWhile_rstrip_dropWhile, rstripList_idem]

/-! Characterization of `create_new_id`. -/

/-- The state after a successful `create_new_id new_id`: only `DISK_ID_TO_UUID`
gains the freshly minted identifier. -/
def mintedState (s : DiskConfigurator) (n : String) : DiskConfigurator :=
  { s with DISK_ID_TO_UUID :=
      dinsert n (Config.load_or_generate_uuid (bytesHex n)) s.DISK_ID_TO_UUID }

theorem create_new_id_of_valid (s : DiskConfigurator) (n : String)
    (h1 : n.data.isEmpty = false) (h2 : containsChar n ';' = false)
    (h3 : (dget s.DISK_ID_TO_UUID n).isSome = false) :
    s.create_new_id n = .ok (mintedState s n) := by
  simp [DiskConfigurator.create_new_id, h1, h2, h3, mintedState]

theorem create_new_id_ok_cases {s s1 : DiskConfigurator} {n : String}
    (h : s.create_new_id n = .ok s1) :
    n.data.isEmpty = false ∧ containsChar n ';' = false ∧
    (dget s.DISK_ID_TO_UUID n).isSome = false ∧ s1 = mintedState s n := by
  unfold DiskConfigurator.create_new_id at h
  split at h
  · simp at h
  · split at h
    · simp at h
    · split at h
      · simp at h
      · next h1 h2 h3 =>
        simp only [Except.ok.injEq] at h
        refine ⟨by simpa using h1, by simpa using h2, by simpa using h3, ?_⟩
        exact h.symm

theorem create_new_id_error_state {s : DiskConfigurator} {n : String} {e : Err}
    (h : s.create_new_id n = .error e) :
    n.data.isEmpty = true ∨ containsChar n ';' = true ∨
    (dget s.DISK_ID_TO_UUID n).isSome = true := by
  unfold DiskConfigurator.create_new_id at h
  split at h
  · next h1 => exact Or.inl h1
  · split at h
    · next _ h2 => exact Or.inr (Or.inl h2)
    · split at h
      · next _ _ h3 => exact Or.inr (Or.inr h3)
      · simp at h

/-! The builder operations as a step language, and monotonicity of the
remaining-size-used flags: no operation ever clears a set flag. -/

/-- One call to a modelled builder operation of `DiskConfigurator`. -/
inductive Op : Type where
  | regExisting (new_id device : String)
  | mkGpt (new_id : String) (device id_val : Option String)
  | mkPart (new_id id_val size type_ : String)
  | classic (device swap type_ luks root_fs : String)

/-- Run one builder operation on a configurator state. -/
def runOp (s : DiskConfigurator) : Op → DResult
  | .regExisting n d => s.register_existing n d
  | .mkGpt n d i => s.create_gpt n d i
  | .mkPart n i sz ty => s.create_partition n i sz ty
  | .classic d sw ty lk fsty => s.create_classic_single_disk_layout d sw ty lk fsty

theorem flags_create_new_id {s s1 : DiskConfigurator} {n : String}
    (h : s.create_new_id n = .ok s1) :
    s1.DISK_GPT_HAD_SIZE_REMAINING = s.DISK_GPT_HAD_SIZE_REMAINING := by
  obtain ⟨-, -, -, rfl⟩ := create_new_id_ok_cases h
  rfl

theorem flag_mono_register_existing (s : DiskConfigurator) (n d t : String)
    (h : dget s.DISK_GPT_HAD_SIZE_REMAINING t = some true) :
    dget (stateOf (s.register_existing n d)).DISK_GPT_HAD_SIZE_REMAINING t = some true := by
  unfold DiskConfigurator.register_existing
  cases hc : s.create_new_id n with
  | error e => exact h
  | ok s1 =>
    show dget s1.DISK_GPT_HAD_SIZE_REMAINING t = some true
    rw [flags_create_new_id hc]; exact h

theorem flag_mono_create_gpt (s : DiskConfigurator) (n : String) (dev i : Option String)
    (t : String) (h : dget s.DISK_GPT_HAD_SIZE_REMAINING t = some true) :
    dget (stateOf (s.create_gpt n dev i)).DISK_GPT_HAD_SIZE_REMAINING t = some true := by
  unfold DiskConfigurator.create_gpt
  by_cases b0 : (pyTruthy dev && pyTruthy i) = true
  · rw [if_pos b0]; exact h
  · rw [if_neg b0]
    cases hc : s.create_new_id n with
    | error e => exact h
    | ok s1 =>
      dsimp only
      have hf : dget s1.DISK_GPT_HAD_SIZE_REMAINING t = some true := by
        rw [flags_create_new_id hc]; exact h
      by_cases b1 : (pyTruthy i && (dget s1.DISK_ID_TO_UUID (i.getD "")).isNone) = true
      · rw [if_pos b1]; exact hf
      · rw [if_neg b1]; exact hf

theorem flag_mono_create_partition (s : DiskConfigurator) (n i sz ty t : String)
    (h : dget s.DISK_GPT_HAD_SIZE_REMAINING t = some true) :
    dget (stateOf (s.create_partition n i sz ty)).DISK_GPT_HAD_SIZE_REMAINING t = some true := by
  unfold DiskConfigurator.create_partition
  cases hc : s.create_new_id n with
  | error e => exact h
  | ok s1 =>
    dsimp only
    have hf : dget s1.DISK_GPT_HAD_SIZE_REMAINING t = some true := by
      rw [flags_create_new_id hc]; exact h
    by_cases b1 : (dget s1.DISK_ID_TO_UUID i).isNone = true
    · rw [if_pos b1]; exact hf
    · rw [if_neg b1]
      by_cases b2 : (!(DiskConfigurator.partitionTypes.contains ty)) = true
      · rw [if_pos b2]; exact hf
      · rw [if_neg b2]
        by_cases b3 : ((dget s1.DISK_GPT_HAD_SIZE_REMAINING i).getD false) = true
        · rw [if_pos b3]; exact hf
        · rw [if_neg b3]
          by_cases bsz : sz = "remaining"
          · simp only [bsz, if_pos rfl]
            show dget (dinsert i true s1.DISK_GPT_HAD_SIZE_REMAINING) t = some true
            exact dget_dinsert_true_mono hf
          · simp only [if_neg bsz]
            exact hf

theorem flags_after_partitions (s4 : DiskConfigurator) (swap type_ luks root_fs : String) :
    (stateOf (s4.classic_after_partitions swap type_ luks
      root_fs)).DISK_GPT_HAD_SIZE_REMAINING = s4.DISK_GPT_HAD_SIZE_REMAINING := by
  unfold DiskConfigurator.classic_after_partitions
  by_cases hl : luks = "true"
  · simp only [hl, if_pos rfl]
    cases hdg : dget { s4 with
        USED_LUKS := true, USED_ENCRYPTION := true,
        DISK_ACTIONS := s4.DISK_ACTIONS ++
          ["action=create_luks new_id=part_luks_root name=root id=part_root;"]
      }.DISK_ID_TO_UUID "part_luks_root" with
    | none => simp [stateOf]
    | some u =>
      by_cases hsw : swap = "false" <;> by_cases hty : type_ = "efi" <;>
        simp only [hsw, hty, ne_eq, reduceIte] <;> split_ifs <;> simp [stateOf]
  · simp only [hl, if_neg hl, reduceIte]
    by_cases hsw : swap = "false" <;> by_cases hty : type_ = "efi" <;>
      simp only [hsw, hty, ne_eq, reduceIte] <;> split_ifs <;> simp [stateOf]

theorem flag_mono_classic (s : DiskConfigurator) (device swap type_ luks root_fs t : String)
    (h : dget s.DISK_GPT_HAD_SIZE_REMAINING t = some true) :
    dget (stateOf (s.create_classic_single_disk_layout device swap type_ luks
      root_fs)).DISK_GPT_HAD_SIZE_REMAINING t = some true := by
  unfold DiskConfigurator.create_classic_single_disk_layout
  have m1 := flag_mono_create_gpt s "gpt" (some device) none t h
  cases h1 : s.create_gpt "gpt" (some device) none with
  | error e => rw [h1] at m1; exact m1
  | ok s1 =>
    rw [h1] at m1
    dsimp only
    replace m1 : dget s1.DISK_GPT_HAD_SIZE_REMAINING t = some true := m1
    have m2 := flag_mono_create_partition s1 ("part_" ++ type_) "gpt" "1GiB" type_ t m1
    cases h2 : s1.create_partition ("part_" ++ type_) "gpt" "1GiB" type_ with
    | error e => rw [h2] at m2; exact m2
    | ok s2 =>
      rw [h2] at m2
      dsimp only
      replace m2 : dget s2.DISK_GPT_HAD_SIZE_REMAINING t = some true := m2
      by_cases hsw : swap = "false"
      · rw [if_neg (by simp [hsw] : ¬ swap ≠ "false")]
        dsimp only
        have m4 := flag_mono_create_partition s2 "part_root" "gpt" "remaining" "linux" t m2
        cases h4 : s2.create_partition "part_root" "gpt" "remaining" "linux" with
        | error e => rw [h4] at m4; exact m4
        | ok s4 =>
          rw [h4] at m4
          dsimp only
          replace m4 : dget s4.DISK_GPT_HAD_SIZE_REMAINING t = some true := m4
          rw [flags_after_partitions]; exact m4
      · rw [if_pos hsw]
        have m3 := flag_mono_create_partition s2 "part_swap" "gpt" swap "swap" t m2
        cases h3 : s2.create_partition "part_swap" "gpt" swap "swap" with
        | error e => rw [h3] at m3; exact m3
        | ok s3 =>
          rw [h3] at m3
          dsimp only
          replace m3 : dget s3.DISK_GPT_HAD_SIZE_REMAINING t = some true := m3
          have m4 := flag_mono_create_partition s3 "part_root" "gpt" "remaining" "linux" t m3
          cases h4 : s3.create_partition "part_root" "gpt" "remaining" "linux" with
          | error e => rw [h4] at m4; exact m4
          | ok s4 =>
            rw [h4] at m4
            dsimp only
            replace m4 : dget s4.DISK_GPT_HAD_SIZE_REMAINING t = some true := m4
            rw [flags_after_partitions]; exact m4

theorem flag_mono_runOp (s : DiskConfigurator) (op : Op) (t : String)
    (h : dget s.DISK_GPT_HAD_SIZE_REMAINING t = some true) :
    dget (stateOf (runOp s op)).DISK_GPT_HAD_SIZE_REMAINING t = some true := by
  cases op with
  | regExisting n d => exact flag_mono_register_existing s n d t h
  | mkGpt n dev i => exact flag_mono_create_gpt s n dev i t h
  | mkPart n i sz ty => exact flag_mono_create_partition s n i sz ty t h
  | classic d sw ty lk fsty => exact flag_mono_classic s d sw ty lk fsty t h

/-! Resolve-entry parsing lemmas: splitting `kind:value` strings. -/

theorem containsChar_colon_device (p : String) : containsChar ("device:" ++ p) ':' = true := by
  cases p with
  | mk l => rfl

theorem splitFirstColon_device (p : String) :
    Utils.splitFirstColon ("device:" ++ p) = ("device", p) := by
  cases p with
  | mk l => rfl

theorem containsChar_colon_partuuid (p : String) : containsChar ("partuuid:" ++ p) ':' = true := by
  cases p with
  | mk l => rfl

theorem splitFirstColon_partuuid (p : String) :
    Utils.splitFirstColon ("partuuid:" ++ p) = ("partuuid", p) := by
  cases p with
  | mk l => rfl

theorem containsChar_colon_ptuuid (p : String) : containsChar ("ptuuid:" ++ p) ':' = true := by
  cases p with
  | mk l => rfl

theorem splitFirstColon_ptuuid (p : String) :
    Utils.splitFirstColon ("ptuuid:" ++ p) = ("ptuuid", p) := by
  cases p with
  | mk l => rfl

theorem containsChar_colon_mdadm (p : String) : containsChar ("mdadm:" ++ p) ':' = true := by
  cases p with
  | mk l => rfl

theorem splitFirstColon_mdadm (p : String) :
    Utils.splitFirstColon ("mdadm:" ++ p) = ("mdadm", p) := by
  cases p with
  | mk l => rfl

/-! Claim theorems. -/

/-- C1: contrary to the claim, `create_classic_single_disk_layout(device="/dev/sda",
swap="8GiB", type="efi", luks="true", root_fs="ext4")` on a fresh
`DiskConfigurator` does NOT succeed: the luks branch appends the
`create_luks` action string but never registers `part_luks_root` in
`DISK_ID_TO_UUID`, so building the dracut cmdline fragment raises `KeyError`.
At the moment of death the plan holds exactly the table action, the three
partition actions and the `create_luks` action (no format actions),
`DISK_DRACUT_CMDLINE` is empty and `DISK_ID_ROOT` is still unset. -/
theorem C1_classic_luks_keyerror :
    errOf (DiskConfigurator.create_classic_single_disk_layout initState
      "/dev/sda" "8GiB" "efi" "true" "ext4") = some (.keyError "part_luks_root") ∧
    (stateOf (DiskConfigurator.create_classic_single_disk_layout initState
      "/dev/sda" "8GiB" "efi" "true" "ext4")).DISK_ACTIONS =
      ["action=create_gpt new_id=gpt device=/dev/sda;",
       "action=create_partition new_id=part_efi id=gpt size=1GiB type=efi;",
       "action=create_partition new_id=part_swap id=gpt size=8GiB type=swap;",
       "action=create_partition new_id=part_root id=gpt size=remaining type=linux;",
       "action=create_luks new_id=part_luks_root name=root id=part_root;"] ∧
    (stateOf (DiskConfigurator.create_classic_single_disk_layout initState
      "/dev/sda" "8GiB" "efi" "true" "ext4")).DISK_DRACUT_CMDLINE = [] ∧
    (stateOf (DiskConfigurator.create_classic_single_disk_layout initState
      "/dev/sda" "8GiB" "efi" "true" "ext4")).DISK_ID_ROOT = none ∧
    (stateOf (DiskConfigurator.create_classic_single_disk_layout initState
      "/dev/sda" "8GiB" "efi" "true" "ext4")).USED_LUKS = true := by
  decide

/-- C3: contrary to the claim, the identifier-to-UUID map is NOT injective:
config.py's `load_or_generate_uuid` placeholder truncates the hex encoding of
the identifier to its first 4 characters (the first two characters of the
identifier), so the distinct identifiers `ab1` and `ab2`, created via
`create_new_id` in the same run, both receive the UUID `STUB-UUID-6162`. -/
theorem C3_stub_uuid_collision :
    ("ab1" ≠ "ab2") ∧
    ((initState.create_new_id "ab1").toOption.bind
        (fun s1 => (s1.create_new_id "ab2").toOption)).map
      (fun s2 => (dget s2.DISK_ID_TO_UUID "ab1", dget s2.DISK_ID_TO_UUID "ab2"))
      = some (some "STUB-UUID-6162", some "STUB-UUID-6162") := by
  exact ⟨by decide, by decide⟩

/-- C2 counterexample: a rejected `create_gpt` call does leave partial state.
On a fresh configurator, `create_gpt(new_id="x", id="tbl")` with `tbl` unknown
is rejected (fatal `Identifier id='tbl' not found`), yet at the moment of
death the freshly minted identifier `x` is registered in `DISK_ID_TO_UUID`,
which was empty before the call. -/
theorem C2_partial_state_cex :
    errOf (DiskConfigurator.create_gpt initState "x" none (some "tbl"))
      = some (.unknownId "id" "tbl") ∧
    initState.DISK_ID_TO_UUID = [] ∧
    (stateOf (DiskConfigurator.create_gpt initState "x" none (some "tbl"))).DISK_ID_TO_UUID
      = [("x", "STUB-UUID-78")] := by
  decide

/-- C4 counterexample: `create_gpt` with NEITHER `device` nor the existing
table id given does not fail — it succeeds and appends a bare
`create_gpt` action (`only_one_of` only rejects more than one present key). -/
theorem C4_gpt_neither_cex :
    isOkResult (DiskConfigurator.create_gpt initState "g" none none) = true ∧
    (stateOf (DiskConfigurator.create_gpt initState "g" none none)).DISK_ACTIONS
      = ["action=create_gpt new_id=g;"] := by
  decide

/-- C10 counterexample: with `luks="true"` and an unsupported
`root_fs="xfs"`, the call does NOT terminate with the fatal
`Unsupported root filesystem type` error: it dies earlier with the
`part_luks_root` `KeyError`, before any format action is appended and before
`DISK_ID_ROOT` is set. -/
theorem C10_unsupported_rootfs_cex :
    errOf (DiskConfigurator.create_classic_single_disk_layout initState
      "/dev/sda" "8GiB" "efi" "true" "xfs") = some (.keyError "part_luks_root") ∧
    (stateOf (DiskConfigurator.create_classic_single_disk_layout initState
      "/dev/sda" "8GiB" "efi" "true" "xfs")).DISK_ID_ROOT = none ∧
    ((stateOf (DiskConfigurator.create_classic_single_disk_layout initState
      "/dev/sda" "8GiB" "efi" "true" "xfs")).DISK_ACTIONS.filter
        (fun a => "action=format".data.isPrefixOf a.data)) = [] := by
  decide

/-- C7: creating the same identifier twice fails the second time with the
duplicate-identifier error and the first registry entry is kept; creating an
empty identifier fails with the required-argument error (config.py's
realization of `InvalidIdentifier` for an empty id, since `if not id_val`
catches the empty string), and an identifier containing the reserved
separator `;` fails with the invalid-character error; in the shape-error
cases nothing is registered (`register_existing` dies with the state exactly
as before the call). -/
theorem C7_identifier_errors :
    (∀ (s s1 : DiskConfigurator) (id : String), s.create_new_id id = .ok s1 →
      s1.create_new_id id = .error (.duplicateId id) ∧
      dget s1.DISK_ID_TO_UUID id = some (Config.load_or_generate_uuid (bytesHex id))) ∧
    (∀ s : DiskConfigurator, s.create_new_id "" = .error (.requiredArg "new_id")) ∧
    (∀ (s : DiskConfigurator) (id : String), id.data.isEmpty = false →
      containsChar id ';' = true → s.create_new_id id = .error .invalidSeparator) ∧
    (∀ (s : DiskConfigurator) (id device : String),
      id.data.isEmpty = true ∨ containsChar id ';' = true →
      stateOf (s.register_existing id device) = s ∧
      isOkResult (s.register_existing id device) = false) := by
  refine ⟨?_, ?_, ?_, ?_⟩
  · intro s s1 id h
    obtain ⟨h1, h2, h3, rfl⟩ := create_new_id_ok_cases h
    constructor
    · unfold DiskConfigurator.create_new_id
      rw [if_neg (by simp [h1]), if_neg (by simp [h2]), if_pos]
      show (dget (dinsert id (Config.load_or_generate_uuid (bytesHex id))
        s.DISK_ID_TO_UUID) id).isSome = true
      rw [dget_dinsert_self]
      rfl
    · exact dget_dinsert_self id _ s.DISK_ID_TO_UUID
  · intro s
    rfl
  · intro s id h1 h2
    unfold DiskConfigurator.create_new_id
    rw [if_neg (by simp [h1]), if_pos h2]
  · intro s id device h
    unfold DiskConfigurator.register_existing
    cases hc : s.create_new_id id with
    | error e => exact ⟨rfl, rfl⟩
    | ok s1 =>
      obtain ⟨h1, h2, -, -⟩ := create_new_id_ok_cases hc
      rcases h with h | h
      · rw [h1] at h; exact absurd h (by simp)
      · rw [h2] at h; exact absurd h (by simp)

/-- C7 witness: the theorem instantiated at concrete inputs (duplicate
creation of `a`; empty id on a fresh configurator; id `x;y` with the
separator; `register_existing` with the invalid id `a;b` leaving the fresh
state untouched). -/
theorem C7_identifier_errors_witness :
    ((mintedState initState "a").create_new_id "a" = .error (.duplicateId "a") ∧
      dget (mintedState initState "a").DISK_ID_TO_UUID "a"
        = some (Config.load_or_generate_uuid (bytesHex "a"))) ∧
    initState.create_new_id "" = .error (.requiredArg "new_id") ∧
    initState.create_new_id "x;y" = .error .invalidSeparator ∧
    (stateOf (initState.register_existing "a;b" "/dev/sda") = initState ∧
      isOkResult (initState.register_existing "a;b" "/dev/sda") = false) := by
  exact ⟨C7_identifier_errors.1 initState (mintedState initState "a") "a" rfl,
    C7_identifier_errors.2.1 initState,
    C7_identifier_errors.2.2.1 initState "x;y" (by decide) (by decide),
    C7_identifier_errors.2.2.2 initState "a;b" "/dev/sda" (Or.inr (by decide))⟩

/-- C5: once a partition with size `remaining` has been created on a table
`t` (so its remaining-size-used flag holds `true`), any `create_partition`
against `t` — for every size and every valid partition type, with any fresh
valid new identifier — fails with the `TableFull` error (dying after the new
identifier was minted, per the source's check order); and no builder
operation ever clears a set flag, so this holds for every subsequent call. -/
theorem C5_table_full_after_remaining :
    (∀ (s : DiskConfigurator) (t new_id size type_ : String),
      dget s.DISK_GPT_HAD_SIZE_REMAINING t = some true →
      (dget s.DISK_ID_TO_UUID t).isSome = true →
      new_id.data.isEmpty = false → containsChar new_id ';' = false →
      (dget s.DISK_ID_TO_UUID new_id).isSome = false →
      DiskConfigurator.partitionTypes.contains type_ = true →
      s.create_partition new_id t size type_ = .error (.tableFull t, mintedState s new_id)) ∧
    (∀ (s : DiskConfigurator) (op : Op) (t : String),
      dget s.DISK_GPT_HAD_SIZE_REMAINING t = some true →
      dget (stateOf (runOp s op)).DISK_GPT_HAD_SIZE_REMAINING t = some true) := by
  constructor
  · intro s t new_id size type_ hflag ht h1 h2 h3 htype
    have hne : new_id ≠ t := by
      intro he
      rw [he, ht] at h3
      exact absurd h3 (by simp)
    unfold DiskConfigurator.create_partition
    rw [create_new_id_of_valid s new_id h1 h2 h3]
    dsimp only
    have huuid : dget (mintedState s new_id).DISK_ID_TO_UUID t
        = dget s.DISK_ID_TO_UUID t := by
      show dget (dinsert new_id _ s.DISK_ID_TO_UUID) t = dget s.DISK_ID_TO_UUID t
      exact dget_dinsert_ne _ _ hne
    rw [if_neg (c := (dget (mintedState s new_id).DISK_ID_TO_UUID t).isNone = true)
      (by rw [huuid]; simp [Option.isNone_iff_eq_none]
          intro hn; rw [hn] at ht; exact absurd ht (by simp))]
    rw [if_neg (fun hC => by rw [htype] at hC; exact absurd hC (by decide))]
    rw [if_pos]
    show (dget (mintedState s new_id).DISK_GPT_HAD_SIZE_REMAINING t).getD false = true
    show (dget s.DISK_GPT_HAD_SIZE_REMAINING t).getD false = true
    rw [hflag]
    rfl
  · intro s op t h
    exact flag_mono_runOp s op t h

/-- C5 witness: on a state where table `t` is registered and its
remaining-size flag is set, `create_partition(new_id="p", id="t")` fails with
`TableFull`, and running a further `create_partition` step preserves the
flag. -/
theorem C5_table_full_witness :
    ({ initState with
        DISK_ID_TO_UUID := [("t", "u")],
        DISK_GPT_HAD_SIZE_REMAINING := [("t", true)] } : DiskConfigurator).create_partition
        "p" "t" "1GiB" "linux"
      = .error (.tableFull "t", mintedState { initState with
          DISK_ID_TO_UUID := [("t", "u")],
          DISK_GPT_HAD_SIZE_REMAINING := [("t", true)] } "p") ∧
    dget (stateOf (runOp { initState with
        DISK_ID_TO_UUID := [("t", "u")],
        DISK_GPT_HAD_SIZE_REMAINING := [("t", true)] } (.mkPart "q" "t" "8GiB" "swap"))).DISK_GPT_HAD_SIZE_REMAINING "t" = some true := by
  exact ⟨C5_table_full_after_remaining.1 _ "t" "p" "1GiB" "linux"
      (by decide) (by decide) (by decide) (by decide) (by decide) (by decide),
    C5_table_full_after_remaining.2 _ (.mkPart "q" "t" "8GiB" "swap") "t" (by decide)⟩

/-- C2 amended: shape validation of the NEW identifier (missing/empty id,
reserved separator, duplicate) and `create_gpt`'s mutual-exclusion check run
before any mutation, and such rejections leave the state exactly as before
the call; but the later checks (unknown referenced table id in
`create_gpt`/`create_partition`, invalid type enum — and likewise the
TableFull check, covered by the C5 theorem) run only after the new
Identifier has been minted, so those rejected calls die with exactly one
mutation: the new Identifier in `DISK_ID_TO_UUID` (`mintedState`), all other
tables, the plan and the resolve entries unchanged. -/
theorem C2_validation_order_amended :
    (∀ (s : DiskConfigurator) (n d : String) (e : Err),
      s.create_new_id n = .error e → s.register_existing n d = .error (e, s)) ∧
    (∀ (s : DiskConfigurator) (n : String) (dev i : Option String) (e : Err),
      (pyTruthy dev && pyTruthy i) = false →
      s.create_new_id n = .error e → s.create_gpt n dev i = .error (e, s)) ∧
    (∀ (s : DiskConfigurator) (n : String) (dev i : Option String),
      (pyTruthy dev && pyTruthy i) = true →
      s.create_gpt n dev i = .error (.onlyOneOf "device, id", s)) ∧
    (∀ (s : DiskConfigurator) (n i sz ty : String) (e : Err),
      s.create_new_id n = .error e → s.create_partition n i sz ty = .error (e, s)) ∧
    (∀ (s : DiskConfigurator) (n iv : String),
      n.data.isEmpty = false → containsChar n ';' = false →
      (dget s.DISK_ID_TO_UUID n).isSome = false →
      pyTruthy (some iv) = true →
      (dget (mintedState s n).DISK_ID_TO_UUID iv).isNone = true →
      s.create_gpt n none (some iv) = .error (.unknownId "id" iv, mintedState s n)) ∧
    (∀ (s : DiskConfigurator) (n i sz ty : String),
      n.data.isEmpty = false → containsChar n ';' = false →
      (dget s.DISK_ID_TO_UUID n).isSome = false →
      (dget (mintedState s n).DISK_ID_TO_UUID i).isNone = true →
      s.create_partition n i sz ty = .error (.unknownId "id" i, mintedState s n)) ∧
    (∀ (s : DiskConfigurator) (n i sz ty : String),
      n.data.isEmpty = false → containsChar n ';' = false →
      (dget s.DISK_ID_TO_UUID n).isSome = false →
      (dget (mintedState s n).DISK_ID_TO_UUID i).isNone = false →
      DiskConfigurator.partitionTypes.contains ty = false →
      s.create_partition n i sz ty = .error (.invalidOption "type" ty, mintedState s n)) := by
  refine ⟨?_, ?_, ?_, ?_, ?_, ?_, ?_⟩
  · intro s n d e h
    unfold DiskConfigurator.register_existing
    rw [h]
  · intro s n dev i e hcond h
    unfold DiskConfigurator.create_gpt
    rw [if_neg (fun hC => by rw [hcond] at hC; exact absurd hC (by decide)), h]
  · intro s n dev i hcond
    unfold DiskConfigurator.create_gpt
    rw [if_pos hcond]
  · intro s n i sz ty e h
    unfold DiskConfigurator.create_partition
    rw [h]
  · intro s n iv h1 h2 h3 hp hnone
    unfold DiskConfigurator.create_gpt
    rw [if_neg (c := (pyTruthy none && pyTruthy (some iv)) = true) (by simp [pyTruthy])]
    rw [create_new_id_of_valid s n h1 h2 h3]
    dsimp only
    rw [if_pos (by simp [hp, hnone])]
    rfl
  · intro s n i sz ty h1 h2 h3 hnone
    unfold DiskConfigurator.create_partition
    rw [create_new_id_of_valid s n h1 h2 h3]
    dsimp only
    rw [if_pos hnone]
  · intro s n i sz ty h1 h2 h3 hne hty
    unfold DiskConfigurator.create_partition
    rw [create_new_id_of_valid s n h1 h2 h3]
    dsimp only
    rw [if_neg (fun hC => by rw [hne] at hC; exact absurd hC (by decide))]
    rw [if_pos (by rw [hty]; rfl)]

/-- C2 amended witness: the seven cases of the theorem at concrete inputs
(duplicate or malformed new ids leave the fresh state untouched; the
unknown-table and invalid-type rejections leave exactly the minted id). -/
theorem C2_validation_order_witness :
    initState.register_existing "" "/dev/sda" = .error (.requiredArg "new_id", initState) ∧
    initState.create_gpt "a;b" none none = .error (.invalidSeparator, initState) ∧
    initState.create_gpt "g" (some "/dev/sda") (some "t")
      = .error (.onlyOneOf "device, id", initState) ∧
    initState.create_partition "p;q" "t" "1GiB" "linux"
      = .error (.invalidSeparator, initState) ∧
    initState.create_gpt "x" none (some "tbl2")
      = .error (.unknownId "id" "tbl2", mintedState initState "x") ∧
    initState.create_partition "p" "t" "1GiB" "linux"
      = .error (.unknownId "id" "t", mintedState initState "p") ∧
    ({ initState with DISK_ID_TO_UUID := [("t", "u")] } : DiskConfigurator).create_partition
        "p" "t" "1GiB" "bogus"
      = .error (.invalidOption "type" "bogus",
          mintedState { initState with DISK_ID_TO_UUID := [("t", "u")] } "p") := by
  exact ⟨C2_validation_order_amended.1 initState "" "/dev/sda" _ rfl,
    C2_validation_order_amended.2.1 initState "a;b" none none _ (by decide) rfl,
    C2_validation_order_amended.2.2.1 initState "g" (some "/dev/sda") (some "t") (by decide),
    C2_validation_order_amended.2.2.2.1 initState "p;q" "t" "1GiB" "linux" _ rfl,
    C2_validation_order_amended.2.2.2.2.1 initState "x" "tbl2"
      (by decide) (by decide) (by decide) (by decide) (by decide),
    C2_validation_order_amended.2.2.2.2.2.1 initState "p" "t" "1GiB" "linux"
      (by decide) (by decide) (by decide) (by decide),
    C2_validation_order_amended.2.2.2.2.2.2 _ "p" "t" "1GiB" "bogus"
      (by decide) (by decide) (by decide) (by decide) (by decide)⟩

/-- C4 amended: `create_gpt` fails with the mutual-exclusion error exactly
when BOTH `device` and the existing-table id are (truthily) given; with at
most one given — device only, existing table id only, or NEITHER — the call
succeeds (given a fresh valid new identifier, and an existing table id when
one is passed).  The claim's `fails when neither is given` is false on the
code: `only_one_of` rejects only more-than-one. -/
theorem C4_create_gpt_amended :
    (∀ (s : DiskConfigurator) (n : String) (dev i : Option String),
      pyTruthy dev = true → pyTruthy i = true →
      s.create_gpt n dev i = .error (.onlyOneOf "device, id", s)) ∧
    (∀ (s : DiskConfigurator) (n dev : String),
      n.data.isEmpty = false → containsChar n ';' = false →
      (dget s.DISK_ID_TO_UUID n).isSome = false →
      isOkResult (s.create_gpt n (some dev) none) = true) ∧
    (∀ (s : DiskConfigurator) (n iv : String),
      n.data.isEmpty = false → containsChar n ';' = false →
      (dget s.DISK_ID_TO_UUID n).isSome = false →
      (dget s.DISK_ID_TO_UUID iv).isSome = true →
      isOkResult (s.create_gpt n none (some iv)) = true) ∧
    (∀ (s : DiskConfigurator) (n : String),
      n.data.isEmpty = false → containsChar n ';' = false →
      (dget s.DISK_ID_TO_UUID n).isSome = false →
      isOkResult (s.create_gpt n none none) = true) := by
  refine ⟨?_, ?_, ?_, ?_⟩
  · intro s n dev i hd hi
    unfold DiskConfigurator.create_gpt
    rw [if_pos (by rw [hd, hi]; rfl)]
  · intro s n dev h1 h2 h3
    unfold DiskConfigurator.create_gpt
    rw [if_neg (c := (pyTruthy (some dev) && pyTruthy none) = true) (by simp [pyTruthy])]
    rw [create_new_id_of_valid s n h1 h2 h3]
    dsimp only
    rw [if_neg (c := (pyTruthy none && (dget (mintedState s n).DISK_ID_TO_UUID
      ((none : Option String).getD "")).isNone) = true) (by simp [pyTruthy])]
    rfl
  · intro s n iv h1 h2 h3 hiv
    have hne : n ≠ iv := by
      intro he
      rw [he, hiv] at h3
      exact absurd h3 (by simp)
    unfold DiskConfigurator.create_gpt
    rw [if_neg (c := (pyTruthy none && pyTruthy (some iv)) = true) (by simp [pyTruthy])]
    rw [create_new_id_of_valid s n h1 h2 h3]
    dsimp only
    rw [if_neg]
    · rfl
    · intro hC
      have hd : dget (mintedState s n).DISK_ID_TO_UUID iv = dget s.DISK_ID_TO_UUID iv :=
        dget_dinsert_ne _ _ hne
      rw [Bool.and_eq_true] at hC
      have := hC.2
      rw [show ((some iv).getD "") = iv from rfl, hd] at this
      rw [Option.isNone_iff_eq_none] at this
      rw [this] at hiv
      exact absurd hiv (by simp)
  · intro s n h1 h2 h3
    unfold DiskConfigurator.create_gpt
    rw [if_neg (c := (pyTruthy none && pyTruthy none) = true) (by simp [pyTruthy])]
    rw [create_new_id_of_valid s n h1 h2 h3]
    dsimp only
    rw [if_neg (by simp [pyTruthy])]
    rfl

/-- C4 amended witness: both given fails; device only, table id only, and
neither given all succeed on concrete states. -/
theorem C4_create_gpt_witness :
    initState.create_gpt "g1" (some "/dev/sda") (some "t")
      = .error (.onlyOneOf "device, id", initState) ∧
    isOkResult (initState.create_gpt "g2" (some "/dev/sda") none) = true ∧
    isOkResult (({ initState with DISK_ID_TO_UUID := [("t", "u")] } :
      DiskConfigurator).create_gpt "g3" none (some "t")) = true ∧
    isOkResult (initState.create_gpt "g4" none none) = true := by
  exact ⟨C4_create_gpt_amended.1 initState "g1" (some "/dev/sda") (some "t")
      (by decide) (by decide),
    C4_create_gpt_amended.2.1 initState "g2" "/dev/sda" (by decide) (by decide) (by decide),
    C4_create_gpt_amended.2.2.1 _ "g3" "t" (by decide) (by decide) (by decide) (by decide),
    C4_create_gpt_amended.2.2.2 initState "g4" (by decide) (by decide) (by decide)⟩

/-! Step lemmas giving the explicit successful result of `create_gpt` and
`create_partition`, used to execute `create_classic_single_disk_layout`
symbolically.  The result states are named definitions so that the rewritten
goals stay small. -/

/-- The state produced by a successful `create_gpt n (some dev) none`. -/
def gptOkState (s : DiskConfigurator) (n dev : String) : DiskConfigurator :=
  { mintedState s n with
    RESOLVE_ENTRIES := (mintedState s n).RESOLVE_ENTRIES ++
      [(n, "ptuuid", (dget (mintedState s n).DISK_ID_TO_UUID n).getD "")],
    DISK_ACTIONS := (mintedState s n).DISK_ACTIONS ++
      ["action=create_gpt new_id=" ++ n ++ DiskConfigurator.optFragment "device" (some dev)
        ++ DiskConfigurator.optFragment "id" none ++ ";"] }

/-- The state produced by a successful `create_partition n i sz ty` with
`sz ≠ "remaining"`. -/
def partOkState (s : DiskConfigurator) (n i sz ty : String) : DiskConfigurator :=
  { mintedState s n with
    DISK_ID_PART_TO_GPT_ID := dinsert n i (mintedState s n).DISK_ID_PART_TO_GPT_ID,
    RESOLVE_ENTRIES := (mintedState s n).RESOLVE_ENTRIES ++
      [(n, "partuuid", (dget (mintedState s n).DISK_ID_TO_UUID n).getD "")],
    DISK_ACTIONS := (mintedState s n).DISK_ACTIONS ++
      ["action=create_partition new_id=" ++ n ++ " id=" ++ i ++ " size=" ++ sz
        ++ " type=" ++ ty ++ ";"] }

/-- The state produced by a successful `create_partition n i "remaining" ty`. -/
def partRemOkState (s : DiskConfigurator) (n i ty : String) : DiskConfigurator :=
  { mintedState s n with
    DISK_GPT_HAD_SIZE_REMAINING := dinsert i true (mintedState s n).DISK_GPT_HAD_SIZE_REMAINING,
    DISK_ID_PART_TO_GPT_ID := dinsert n i (mintedState s n).DISK_ID_PART_TO_GPT_ID,
    RESOLVE_ENTRIES := (mintedState s n).RESOLVE_ENTRIES ++
      [(n, "partuuid", (dget (mintedState s n).DISK_ID_TO_UUID n).getD "")],
    DISK_ACTIONS := (mintedState s n).DISK_ACTIONS ++
      ["action=create_partition new_id=" ++ n ++ " id=" ++ i ++ " size=" ++ "remaining"
        ++ " type=" ++ ty ++ ";"] }

theorem gpt_step (s : DiskConfigurator) (n dev : String)
    (h1 : n.data.isEmpty = false) (h2 : containsChar n ';' = false)
    (h3 : (dget s.DISK_ID_TO_UUID n).isSome = false) :
    s.create_gpt n (some dev) none = .ok (gptOkState s n dev) := by
  unfold DiskConfigurator.create_gpt
  rw [if_neg (c := (pyTruthy (some dev) && pyTruthy none) = true) (by simp [pyTruthy])]
  rw [create_new_id_of_valid s n h1 h2 h3]
  dsimp only
  rw [if_neg (c := (pyTruthy none && (dget (mintedState s n).DISK_ID_TO_UUID
    ((none : Option String).getD "")).isNone) = true) (by simp [pyTruthy])]
  rfl

theorem part_step_nonrem (s : DiskConfigurator) (n i sz ty : String)
    (hsz : sz ≠ "remaining")
    (h1 : n.data.isEmpty = false) (h2 : containsChar n ';' = false)
    (h3 : (dget s.DISK_ID_TO_UUID n).isSome = false)
    (hi : (dget (mintedState s n).DISK_ID_TO_UUID i).isNone = false)
    (hty : (!(DiskConfigurator.partitionTypes.contains ty)) = false)
    (hflag : (dget (mintedState s n).DISK_GPT_HAD_SIZE_REMAINING i).getD false = false) :
    s.create_partition n i sz ty = .ok (partOkState s n i sz ty) := by
  unfold DiskConfigurator.create_partition
  rw [create_new_id_of_valid s n h1 h2 h3]
  dsimp only
  rw [if_neg (fun hC => by rw [hi] at hC; exact absurd hC (by decide))]
  rw [if_neg (fun hC => by rw [hty] at hC; exact absurd hC (by decide))]
  rw [if_neg (fun hC => by rw [hflag] at hC; exact absurd hC (by decide))]
  rw [if_neg hsz]
  rfl

theorem part_step_rem (s : DiskConfigurator) (n i ty : String)
    (h1 : n.data.isEmpty = false) (h2 : containsChar n ';' = false)
    (h3 : (dget s.DISK_ID_TO_UUID n).isSome = false)
    (hi : (dget (mintedState s n).DISK_ID_TO_UUID i).isNone = false)
    (hty : (!(DiskConfigurator.partitionTypes.contains ty)) = false)
    (hflag : (dget (mintedState s n).DISK_GPT_HAD_SIZE_REMAINING i).getD false = false) :
    s.create_partition n i "remaining" ty = .ok (partRemOkState s n i ty) := by
  unfold DiskConfigurator.create_partition
  rw [create_new_id_of_valid s n h1 h2 h3]
  dsimp only
  rw [if_neg (fun hC => by rw [hi] at hC; exact absurd hC (by decide))]
  rw [if_neg (fun hC => by rw [hty] at hC; exact absurd hC (by decide))]
  rw [if_neg (fun hC => by rw [hflag] at hC; exact absurd hC (by decide))]
  rw [if_pos rfl]
  rfl

/-- Facts about the tail of the layout recipe on the non-luks path: the call
dies with the unsupported-root-filesystem error after setting the root role
ids, and the state at death extends the incoming plan with the format
actions. -/
theorem tail_facts (s4 : DiskConfigurator) (swap type_ luks root_fs : String)
    (hl : ¬ luks = "true") (hb : ¬ root_fs = "btrfs") (he : ¬ root_fs = "ext4") :
    errOf (s4.classic_after_partitions swap type_ luks root_fs) = some .unsupportedRootFs ∧
    (stateOf (s4.classic_after_partitions swap type_ luks root_fs)).DISK_ID_ROOT
      = some "part_root" ∧
    (stateOf (s4.classic_after_partitions swap type_ luks root_fs)).DISK_ID_ROOT_TYPE
      = some root_fs ∧
    (stateOf (s4.classic_after_partitions swap type_ luks root_fs)).DISK_ACTIONS
      = s4.DISK_ACTIONS ++
          (if swap ≠ "false" then
            ["action=format id=part_" ++ type_ ++ " type=" ++ type_ ++ " label=" ++ type_ ++ ";",
             "action=format id=part_swap type=swap label=swap;",
             "action=format id=" ++ "part_root" ++ " type=" ++ root_fs ++ " label=root;"]
          else
            ["action=format id=part_" ++ type_ ++ " type=" ++ type_ ++ " label=" ++ type_ ++ ";",
             "action=format id=" ++ "part_root" ++ " type=" ++ root_fs ++ " label=root;"]) := by
  unfold DiskConfigurator.classic_after_partitions
  dsimp only
  rw [if_neg hl]
  dsimp only
  rw [if_neg hb, if_neg he]
  refine ⟨rfl, rfl, rfl, ?_⟩
  by_cases hsw : swap = "false"
  · subst hsw
    by_cases hty : type_ = "efi"
    · subst hty
      simp only [if_neg (show ¬ (("false" : String) ≠ "false") by decide),
        if_pos (show ("efi" : String) = "efi" from rfl), List.append_assoc]
      rfl
    · rw [if_neg hty]
      simp only [if_neg (show ¬ (("false" : String) ≠ "false") by decide), List.append_assoc]
      rfl
  · simp only [ne_eq, hsw, not_false_eq_true, reduceIte]
    by_cases hty : type_ = "efi"
    · subst hty
      simp only [reduceIte, List.append_assoc]
      rfl
    · rw [if_neg hty]
      simp only [reduceIte, List.append_assoc]
      rfl

/-- C10 amended: the unsupported-root-filesystem rejection happens only after
the whole plan was built — but only on the non-luks path.  For every call on
a fresh configurator with `luks ≠ "true"`, boot type `efi` or `bios`, a swap
spec that is `"false"` or any size other than `"remaining"`, and a `root_fs`
that is neither `ext4` nor `btrfs`, the call dies with the fatal
`Unsupported root filesystem type` error after the table, partition and
format actions were appended (5 actions without swap, 7 with) and after
`DISK_ID_ROOT`/`DISK_ID_ROOT_TYPE` were set; with `luks="true"` the call
instead dies earlier with the `part_luks_root` KeyError before any format
action (the counterexample theorem). -/
theorem C10_unsupported_rootfs_amended :
    ∀ device swap type_ luks root_fs : String,
      (type_ = "efi" ∨ type_ = "bios") → luks ≠ "true" → swap ≠ "remaining" →
      root_fs ≠ "btrfs" → root_fs ≠ "ext4" →
      errOf (DiskConfigurator.create_classic_single_disk_layout initState device swap
        type_ luks root_fs) = some .unsupportedRootFs ∧
      (stateOf (DiskConfigurator.create_classic_single_disk_layout initState device swap
        type_ luks root_fs)).DISK_ID_ROOT = some "part_root" ∧
      (stateOf (DiskConfigurator.create_classic_single_disk_layout initState device swap
        type_ luks root_fs)).DISK_ID_ROOT_TYPE = some root_fs ∧
      (stateOf (DiskConfigurator.create_classic_single_disk_layout initState device swap
        type_ luks root_fs)).DISK_ACTIONS.length = (if swap = "false" then 5 else 7) ∧
      (stateOf (DiskConfigurator.create_classic_single_disk_layout initState device swap
        type_ luks root_fs)).DISK_ACTIONS.getLast?
        = some ("action=format id=part_root type=" ++ root_fs ++ " label=root;") := by
  intro device swap type_ luks root_fs htype hluks hrem hb he
  rcases htype with rfl | rfl <;> by_cases hsw : swap = "false"
  · subst hsw
    unfold DiskConfigurator.create_classic_single_disk_layout
    rw [gpt_step initState "gpt" device rfl rfl rfl]
    dsimp only
    rw [part_step_nonrem (gptOkState initState "gpt" device) ("part_" ++ "efi") "gpt"
      "1GiB" "efi" (by decide) rfl rfl rfl rfl rfl rfl]
    dsimp only
    rw [if_neg (c := ("false" : String) ≠ "false") (by decide)]
    dsimp only
    rw [part_step_rem (partOkState (gptOkState initState "gpt" device) ("part_" ++ "efi")
      "gpt" "1GiB" "efi") "part_root" "gpt" "linux" rfl rfl rfl rfl rfl rfl]
    dsimp only
    obtain ⟨t1, t2, t3, t4⟩ := tail_facts (partRemOkState (partOkState (gptOkState initState
      "gpt" device) ("part_" ++ "efi") "gpt" "1GiB" "efi") "part_root" "gpt" "linux")
      "false" "efi" luks root_fs hluks hb he
    refine ⟨t1, t2, t3, ?_, ?_⟩
    · rw [t4]; rfl
    · rw [t4]; rfl
  · unfold DiskConfigurator.create_classic_single_disk_layout
    rw [gpt_step initState "gpt" device rfl rfl rfl]
    dsimp only
    rw [part_step_nonrem (gptOkState initState "gpt" device) ("part_" ++ "efi") "gpt"
      "1GiB" "efi" (by decide) rfl rfl rfl rfl rfl rfl]
    dsimp only
    rw [if_pos (c := swap ≠ "false") hsw]
    rw [part_step_nonrem (partOkState (gptOkState initState "gpt" device) ("part_" ++ "efi")
      "gpt" "1GiB" "efi") "part_swap" "gpt" swap "swap" hrem rfl rfl rfl rfl rfl rfl]
    dsimp only
    rw [part_step_rem (partOkState (partOkState (gptOkState initState "gpt" device)
      ("part_" ++ "efi") "gpt" "1GiB" "efi") "part_swap" "gpt" swap "swap") "part_root"
      "gpt" "linux" rfl rfl rfl rfl rfl rfl]
    dsimp only
    obtain ⟨t1, t2, t3, t4⟩ := tail_facts (partRemOkState (partOkState (partOkState
      (gptOkState initState "gpt" device) ("part_" ++ "efi") "gpt" "1GiB" "efi")
      "part_swap" "gpt" swap "swap") "part_root" "gpt" "linux")
      swap "efi" luks root_fs hluks hb he
    refine ⟨t1, t2, t3, ?_, ?_⟩
    · rw [t4, if_pos (c := swap ≠ "false") hsw, if_neg hsw]; rfl
    · rw [t4, if_pos (c := swap ≠ "false") hsw]; rfl
  · subst hsw
    unfold DiskConfigurator.create_classic_single_disk_layout
    rw [gpt_step initState "gpt" device rfl rfl rfl]
    dsimp only
    rw [part_step_nonrem (gptOkState initState "gpt" device) ("part_" ++ "bios") "gpt"
      "1GiB" "bios" (by decide) rfl rfl rfl rfl rfl rfl]
    dsimp only
    rw [if_neg (c := ("false" : String) ≠ "false") (by decide)]
    dsimp only
    rw [part_step_rem (partOkState (gptOkState initState "gpt" device) ("part_" ++ "bios")
      "gpt" "1GiB" "bios") "part_root" "gpt" "linux" rfl rfl rfl rfl rfl rfl]
    dsimp only
    obtain ⟨t1, t2, t3, t4⟩ := tail_facts (partRemOkState (partOkState (gptOkState initState
      "gpt" device) ("part_" ++ "bios") "gpt" "1GiB" "bios") "part_root" "gpt" "linux")
      "false" "bios" luks root_fs hluks hb he
    refine ⟨t1, t2, t3, ?_, ?_⟩
    · rw [t4]; rfl
    · rw [t4]; rfl
  · unfold DiskConfigurator.create_classic_single_disk_layout
    rw [gpt_step initState "gpt" device rfl rfl rfl]
    dsimp only
    rw [part_step_nonrem (gptOkState initState "gpt" device) ("part_" ++ "bios") "gpt"
      "1GiB" "bios" (by decide) rfl rfl rfl rfl rfl rfl]
    dsimp only
    rw [if_pos (c := swap ≠ "false") hsw]
    rw [part_step_nonrem (partOkState (gptOkState initState "gpt" device) ("part_" ++ "bios")
      "gpt" "1GiB" "bios") "part_swap" "gpt" swap "swap" hrem rfl rfl rfl rfl rfl rfl]
    dsimp only
    rw [part_step_rem (partOkState (partOkState (gptOkState initState "gpt" device)
      ("part_" ++ "bios") "gpt" "1GiB" "bios") "part_swap" "gpt" swap "swap") "part_root"
      "gpt" "linux" rfl rfl rfl rfl rfl rfl]
    dsimp only
    obtain ⟨t1, t2, t3, t4⟩ := tail_facts (partRemOkState (partOkState (partOkState
      (gptOkState initState "gpt" device) ("part_" ++ "bios") "gpt" "1GiB" "bios")
      "part_swap" "gpt" swap "swap") "part_root" "gpt" "linux")
      swap "bios" luks root_fs hluks hb he
    refine ⟨t1, t2, t3, ?_, ?_⟩
    · rw [t4, if_pos (c := swap ≠ "false") hsw, if_neg hsw]; rfl
    · rw [t4, if_pos (c := swap ≠ "false") hsw]; rfl

/-- C10 amended witness: the non-luks call with `root_fs="xfs"` fails with
the unsupported-root-filesystem error only after the full 7-action plan was
appended and the root role ids were set. -/
theorem C10_unsupported_rootfs_witness :
    errOf (DiskConfigurator.create_classic_single_disk_layout initState "/dev/sda" "8GiB"
      "efi" "false" "xfs") = some .unsupportedRootFs ∧
    (stateOf (DiskConfigurator.create_classic_single_disk_layout initState "/dev/sda" "8GiB"
      "efi" "false" "xfs")).DISK_ID_ROOT = some "part_root" ∧
    (stateOf (DiskConfigurator.create_classic_single_disk_layout initState "/dev/sda" "8GiB"
      "efi" "false" "xfs")).DISK_ID_ROOT_TYPE = some "xfs" ∧
    (stateOf (DiskConfigurator.create_classic_single_disk_layout initState "/dev/sda" "8GiB"
      "efi" "false" "xfs")).DISK_ACTIONS.length = (if ("8GiB" : String) = "false" then 5 else 7) ∧
    (stateOf (DiskConfigurator.create_classic_single_disk_layout initState "/dev/sda" "8GiB"
      "efi" "false" "xfs")).DISK_ACTIONS.getLast?
      = some ("action=format id=part_root type=" ++ "xfs" ++ " label=root;") :=
  C10_unsupported_rootfs_amended "/dev/sda" "8GiB" "efi" "false" "xfs"
    (Or.inl rfl) (by decide) (by decide) (by decide) (by decide)

/-- C6: UUID persistence (utils.py `load_or_generate_uuid`) is idempotent
across process restarts.  If the store already holds a file for the encoding,
the call returns the stored UUID (stripped, exactly as `f.read().strip()`
does) and does not modify the store; otherwise it persists the stripped
`uuidgen` output under the encoding and returns it.  Consequently a second
call with the same encoding — in particular in a fresh process after a
restart, the store being the only persistent state — returns the same UUID
and leaves the store unchanged, regardless of what `uuidgen` would produce
the second time. -/
theorem C6_uuid_store_idempotent :
    (∀ (files : List (String × String)) (g enc c : String), dget files enc = some c →
      Utils.load_or_generate_uuid ⟨files⟩ g enc = (pyStrip c, ⟨files⟩)) ∧
    (∀ (files : List (String × String)) (g enc : String), dget files enc = none →
      Utils.load_or_generate_uuid ⟨files⟩ g enc
        = (pyStrip g, ⟨dinsert enc (pyStrip g) files⟩)) ∧
    (∀ (store : Utils.UuidStore) (g1 g2 enc : String),
      Utils.load_or_generate_uuid (Utils.load_or_generate_uuid store g1 enc).2 g2 enc
        = Utils.load_or_generate_uuid store g1 enc) := by
  refine ⟨?_, ?_, ?_⟩
  · intro files g enc c h
    unfold Utils.load_or_generate_uuid
    dsimp only
    rw [h]
  · intro files g enc h
    unfold Utils.load_or_generate_uuid
    dsimp only
    rw [h]
  · intro store g1 g2 enc
    obtain ⟨files⟩ := store
    cases hd : dget files enc with
    | some c =>
      unfold Utils.load_or_generate_uuid
      simp only [hd]
    | none =>
      unfold Utils.load_or_generate_uuid
      simp only [hd, dget_dinsert_self, pyStrip_idem]

/-- C6 witness: a stored encoding is returned unchanged without touching the
store; a missing encoding persists the stripped generated UUID; and two
successive calls (the second seeing only the store the first left behind)
agree. -/
theorem C6_uuid_store_witness :
    Utils.load_or_generate_uuid ⟨[("656e63", "u-abc")]⟩ "gen-output" "656e63"
      = (pyStrip "u-abc", ⟨[("656e63", "u-abc")]⟩) ∧
    Utils.load_or_generate_uuid ⟨[]⟩ " u-new \n" "656e63"
      = (pyStrip " u-new \n", ⟨dinsert "656e63" (pyStrip " u-new \n") []⟩) ∧
    Utils.load_or_generate_uuid (Utils.load_or_generate_uuid ⟨[]⟩ "u-1\n" "abc").2 "u-2" "abc"
      = Utils.load_or_generate_uuid ⟨[]⟩ "u-1\n" "abc" :=
  ⟨C6_uuid_store_idempotent.1 [("656e63", "u-abc")] "gen-output" "656e63" "u-abc" rfl,
   C6_uuid_store_idempotent.2.1 [] " u-new \n" "656e63" rfl,
   C6_uuid_store_idempotent.2.2 ⟨[]⟩ "u-1\n" "u-2" "abc"⟩

/-- C8: round-trip for raw devices.  For an identifier whose resolve-table
entry is `device:p`, `resolve_device_by_id` returns
`canonicalize_device fs p`, which is either `p` itself or a
`/dev/disk/by-id/` alias whose real path equals `p`'s real path.  The
resolver is a pure function of the table and the probed system surface, so
repeated queries return identical results, and its type shows it never
writes the resolve table. -/
theorem C8_raw_device_roundtrip (table : List (String × String)) (fs : Utils.SysProbes)
    (idv p : String) (h : dget table idv = some ("device:" ++ p)) :
    Utils.resolve_device_by_id table fs idv = .ok (Utils.canonicalize_device fs p) ∧
    (Utils.canonicalize_device fs p = p ∨
      (∃ name, name ∈ fs.byIdListing ∧
        Utils.canonicalize_device fs p = Utils.pyJoin "/dev/disk/by-id" name ∧
        fs.realpath (Utils.canonicalize_device fs p) = fs.realpath p)) := by
  constructor
  · unfold Utils.resolve_device_by_id
    rw [h]
    rfl
  · unfold Utils.canonicalize_device
    dsimp only
    cases hf : fs.byIdListing.find?
        (fun name => fs.realpath (Utils.pyJoin "/dev/disk/by-id" name) = fs.realpath p) with
    | none =>
      left
      rfl
    | some name =>
      right
      refine ⟨name, List.mem_of_find?_eq_some hf, rfl, ?_⟩
      show fs.realpath (Utils.pyJoin "/dev/disk/by-id" name) = fs.realpath p
      have hp := List.find?_some hf
      exact of_decide_eq_true hp

/-- C8 witness: on a system where `/dev/disk/by-id/ata-QEMU` has the same
real path as `/dev/sda`, resolving the raw-device identifier returns the
canonicalized alias with the matching real path. -/
theorem C8_raw_device_witness :
    Utils.resolve_device_by_id [("root", "device:/dev/sda")]
      ⟨fun s => if s = "/dev/disk/by-id/ata-QEMU" then "/dev/sda" else s,
        ["ata-QEMU"], fun _ => false, fun _ => "", "", ""⟩ "root"
      = .ok (Utils.canonicalize_device
          ⟨fun s => if s = "/dev/disk/by-id/ata-QEMU" then "/dev/sda" else s,
            ["ata-QEMU"], fun _ => false, fun _ => "", "", ""⟩ "/dev/sda") ∧
    (Utils.canonicalize_device
        ⟨fun s => if s = "/dev/disk/by-id/ata-QEMU" then "/dev/sda" else s,
          ["ata-QEMU"], fun _ => false, fun _ => "", "", ""⟩ "/dev/sda" = "/dev/sda" ∨
      (∃ name, name ∈ ["ata-QEMU"] ∧
        Utils.canonicalize_device
          ⟨fun s => if s = "/dev/disk/by-id/ata-QEMU" then "/dev/sda" else s,
            ["ata-QEMU"], fun _ => false, fun _ => "", "", ""⟩ "/dev/sda"
          = Utils.pyJoin "/dev/disk/by-id" name ∧
        (fun s => if s = "/dev/disk/by-id/ata-QEMU" then "/dev/sda" else s)
          (Utils.canonicalize_device
            ⟨fun s => if s = "/dev/disk/by-id/ata-QEMU" then "/dev/sda" else s,
              ["ata-QEMU"], fun _ => false, fun _ => "", "", ""⟩ "/dev/sda")
          = (fun s => if s = "/dev/disk/by-id/ata-QEMU" then "/dev/sda" else s) "/dev/sda")) :=
  C8_raw_device_roundtrip [("root", "device:/dev/sda")]
    ⟨fun s => if s = "/dev/disk/by-id/ata-QEMU" then "/dev/sda" else s,
      ["ata-QEMU"], fun _ => false, fun _ => "", "", ""⟩ "root" "/dev/sda" rfl

/-- C9: when the locator value matches nothing in the relevant probe
utility's output — no blkid `DEVNAME` line for the tag (and no by-partuuid
symlink), no lsblk row with the table UUID and an empty partition UUID, no
mdadm array line with the transformed UUID — `resolve_device_by_id`
terminates with the corresponding fatal `die` (modelled as the
`deviceNotFound` error): it returns neither an empty string nor an unhandled
exception. -/
theorem C9_probe_not_found (table : List (String × String)) (fs : Utils.SysProbes)
    (idP idT idM vP vT vM : String)
    (hP : dget table idP = some ("partuuid:" ++ vP))
    (hPe : fs.pathExists ("/dev/disk/by-partuuid/" ++ vP) = false)
    (hPm : Utils.findDevname (fs.blkidExport ("PARTUUID=" ++ vP)) = none)
    (hT : dget table idT = some ("ptuuid:" ++ vT))
    (hTne : fs.lsblkOutput.data.isEmpty = false)
    (hTm : Utils.scanFirst (Utils.ptuuidMatchAt (pyLower vT).data)
      (pyLower fs.lsblkOutput).data = none)
    (hM : dget table idM = some ("mdadm:" ++ vM))
    (hMm : Utils.scanFirst (Utils.mdadmMatchAt (Utils.uuid_to_mduuid vM).data)
      (pyLower fs.mdadmOutput).data = none) :
    (∃ m, Utils.resolve_device_by_id table fs idP = .error (.deviceNotFound m)) ∧
    (∃ m, Utils.resolve_device_by_id table fs idT = .error (.deviceNotFound m)) ∧
    (∃ m, Utils.resolve_device_by_id table fs idM = .error (.deviceNotFound m)) := by
  refine ⟨?_, ?_, ?_⟩
  · refine ⟨"Could not find device by blkid tag '" ++ ("PARTUUID" ++ "=" ++ vP) ++ "'", ?_⟩
    unfold Utils.resolve_device_by_id
    rw [hP]
    dsimp only
    rw [if_neg (fun hC => by rw [containsChar_colon_partuuid] at hC; exact absurd hC (by decide))]
    rw [splitFirstColon_partuuid]
    dsimp only
    rw [if_pos rfl]
    unfold Utils.get_device_by_partuuid
    rw [if_neg (fun hC => by rw [hPe] at hC; exact absurd hC (by decide))]
    unfold Utils.get_device_by_blkid_field
    dsimp only
    have hPm' : Utils.findDevname (fs.blkidExport ("PARTUUID" ++ "=" ++ vP)) = none := hPm
    rw [hPm']
    rfl
  · refine ⟨"Could not find PTUUID='" ++ pyLower vT ++ "' in lsblk output", ?_⟩
    unfold Utils.resolve_device_by_id
    rw [hT]
    dsimp only
    rw [if_neg (fun hC => by rw [containsChar_colon_ptuuid] at hC; exact absurd hC (by decide))]
    rw [splitFirstColon_ptuuid]
    dsimp only
    rw [if_neg (c := ("ptuuid" : String) = "partuuid") (by decide), if_pos rfl]
    unfold Utils.get_device_by_ptuuid
    dsimp only
    rw [if_neg (fun hC => by rw [hTne] at hC; exact absurd hC (by decide))]
    rw [hTm]
    rfl
  · refine ⟨"Could not find UUID='" ++ Utils.uuid_to_mduuid vM ++ "' in mdadm output", ?_⟩
    unfold Utils.resolve_device_by_id
    rw [hM]
    dsimp only
    rw [if_neg (fun hC => by rw [containsChar_colon_mdadm] at hC; exact absurd hC (by decide))]
    rw [splitFirstColon_mdadm]
    dsimp only
    rw [if_neg (c := ("mdadm" : String) = "partuuid") (by decide),
      if_neg (c := ("mdadm" : String) = "ptuuid") (by decide),
      if_neg (c := ("mdadm" : String) = "uuid") (by decide), if_pos rfl]
    unfold Utils.get_device_by_mdadm_uuid
    dsimp only
    rw [hMm]
    rfl

/-- C9 witness: against a system surface where blkid returns nothing for any
tag, lsblk output is a single non-matching line and the mdadm scan output is
empty, all three locator kinds fail with the fatal device-not-found error. -/
theorem C9_probe_not_found_witness :
    (∃ m, Utils.resolve_device_by_id
      [("a", "partuuid:1111"), ("b", "ptuuid:2222"), ("c", "mdadm:3333")]
      ⟨fun s => s, [], fun _ => false, fun _ => "", "NAME=\"/dev/sda\"", ""⟩ "a"
      = .error (.deviceNotFound m)) ∧
    (∃ m, Utils.resolve_device_by_id
      [("a", "partuuid:1111"), ("b", "ptuuid:2222"), ("c", "mdadm:3333")]
      ⟨fun s => s, [], fun _ => false, fun _ => "", "NAME=\"/dev/sda\"", ""⟩ "b"
      = .error (.deviceNotFound m)) ∧
    (∃ m, Utils.resolve_device_by_id
      [("a", "partuuid:1111"), ("b", "ptuuid:2222"), ("c", "mdadm:3333")]
      ⟨fun s => s, [], fun _ => false, fun _ => "", "NAME=\"/dev/sda\"", ""⟩ "c"
      = .error (.deviceNotFound m)) :=
  C9_probe_not_found
    [("a", "partuuid:1111"), ("b", "ptuuid:2222"), ("c", "mdadm:3333")]
    ⟨fun s => s, [], fun _ => false, fun _ => "", "NAME=\"/dev/sda\"", ""⟩
    "a" "b" "c" "1111" "2222" "3333"
    rfl rfl rfl rfl (by decide) (by decide) rfl (by decide)

end GentooInstall
